import Mathlib

/-!
Verification of the Order/Payment/PaymentItem subsystem of the online_cinema
repository: the payment lifecycle state machine, payment creation, webhook
ingestion, the history query and the Order deletion cascade.

The Order/OrderItem data model is embedded from
src/src/database/models/orders.py.  The payment models and the payment route
module are not present under src/ (only their tests, imports and the Order
side of the relationship are), so the Reconciliation Engine, payment creation,
refund, webhook ingestion and history query are modelled from the spec
(sections 4.1 to 4.5, 6 and 7), using the concrete event-type strings and
error messages fixed by src/src/tests/test_integration/test_payments.py.
Monetary amounts are embedded as integers (the source uses fixed-precision
DECIMAL(10, 2) values, which are only compared for equality and summed here).
-/

namespace OnlineCinema

/-- Order lifecycle status, from OrderStatusEnum in
src/src/database/models/orders.py. -/
inductive OrderStatusEnum where
  | PENDING
  | PAID
  | CANCELED
deriving DecidableEq, Repr

/-- Payment lifecycle status, from PaymentStatusEnum (imported by the tests
from database.models.payments); the spec fixes the four states
pending, successful, canceled, refunded. -/
inductive PaymentStatusEnum where
  | pending
  | successful
  | canceled
  | refunded
deriving DecidableEq, Repr

/-- Order row, from the Order model in src/src/database/models/orders.py. -/
structure Order where
  id : Nat
  user_id : Nat
  status : OrderStatusEnum
  total_amount : Int
deriving DecidableEq, Repr

/-- OrderItem row, from the OrderItem model in
src/src/database/models/orders.py. -/
structure OrderItem where
  id : Nat
  order_id : Nat
  movie_id : Nat
  price_at_order : Int
deriving DecidableEq, Repr

/-- Payment row.  Modelled from the spec: the Payment model of
database/models/payments.py is not under src/; fields follow spec section 3
and the constructor calls in the integration tests. -/
structure Payment where
  id : Nat
  user_id : Nat
  order_id : Nat
  status : PaymentStatusEnum
  amount : Int
  external_payment_id : String
  payment_method : String
deriving DecidableEq, Repr

/-- PaymentItem row.  Modelled from the spec: the PaymentItem model of
database/models/payments.py is not under src/; fields follow spec section 3
and the constructor calls in the integration tests. -/
structure PaymentItem where
  id : Nat
  payment_id : Nat
  order_item_id : Nat
  price_at_payment : Int
deriving DecidableEq, Repr

/-- The relational store visible to the payment subsystem. -/
structure DB where
  orders : List Order
  order_items : List OrderItem
  payments : List Payment
  payment_items : List PaymentItem
deriving DecidableEq, Repr

/-! ## Reconciliation Engine state machine (spec section 4.2) -/

/-- A transition trigger: one of the three gateway events or the
user-initiated API refund request.  Modelled from the spec, section 4.2. -/
inductive TransitionTrigger where
  | gateway_payment_succeeded
  | gateway_payment_canceled
  | gateway_charge_refunded
  | api_refund
deriving DecidableEq, Repr

/-- Target state of each trigger (spec section 4.2 transition table). -/
def targetStatus : TransitionTrigger → PaymentStatusEnum
  | .gateway_payment_succeeded => .successful
  | .gateway_payment_canceled => .canceled
  | .gateway_charge_refunded => .refunded
  | .api_refund => .refunded

/-- Required current state of each trigger (spec section 4.2 table). -/
def precondStatus : TransitionTrigger → PaymentStatusEnum
  | .gateway_payment_succeeded => .pending
  | .gateway_payment_canceled => .pending
  | .gateway_charge_refunded => .successful
  | .api_refund => .successful

/-- Outcome of one conditional check-and-set of the Engine. -/
inductive TransitionResult where
  | applied (new : PaymentStatusEnum)
  | redundant
  | invalid
deriving DecidableEq, Repr

/-- The Engine transition.  Modelled from the spec, section 4.2: a trigger
whose target equals the current state is a redundant no-op treated as
success; a trigger whose precondition matches moves the Payment to the
target; anything else is an illegal transition. -/
def applyTransition (current : PaymentStatusEnum) (t : TransitionTrigger) :
    TransitionResult :=
  if current = targetStatus t then .redundant
  else if current = precondStatus t then .applied (targetStatus t)
  else .invalid

/-! ## Error taxonomy (spec section 7) -/

/-- Client-visible errors of the payment subsystem (spec section 7). -/
inductive ApiError where
  | NotFound (detail : String)
  | ValidationError (detail : String)
  | InvalidStateTransition (detail : String)
  | AuthenticityError
deriving DecidableEq, Repr

/-- HTTP status a raised error surfaces as (spec sections 6 and 7). -/
def httpStatus : ApiError → Nat
  | .NotFound _ => 404
  | .ValidationError _ => 400
  | .InvalidStateTransition _ => 400
  | .AuthenticityError => 400

/-! ## Store lookups and updates -/

/-- Look up an Order by primary key. -/
def findOrder (db : DB) (oid : Nat) : Option Order :=
  db.orders.find? (fun o => o.id == oid)

/-- Look up a Payment by primary key. -/
def findPaymentById (db : DB) (pid : Nat) : Option Payment :=
  db.payments.find? (fun p => p.id == pid)

/-- Look up a Payment by its globally unique external_payment_id, the join
key to the processor events (spec sections 3 and 4.3). -/
def findPaymentByExternalId (db : DB) (ext : String) : Option Payment :=
  db.payments.find? (fun p => p.external_payment_id == ext)

/-- The conditional status update of the Engine: set the status of the
Payment with the given id, touching nothing else. -/
def updatePaymentStatus (db : DB) (pid : Nat) (s : PaymentStatusEnum) : DB :=
  { db with
    payments :=
      db.payments.map (fun p => if p.id == pid then { p with status := s } else p) }

/-! ## Payment creation (spec sections 4.1 and 6, POST /payments) -/

/-- One allocation line of the creation request body. -/
structure PaymentItemInput where
  order_item_id : Nat
  price_at_payment : Int
deriving DecidableEq, Repr

/-- Body of POST /payments (spec section 6). -/
structure CreatePaymentInput where
  order_id : Nat
  amount : Int
  payment_method : String
  external_payment_id : String
  payment_items : List PaymentItemInput
deriving DecidableEq, Repr

/-- The 201 payload: the created Payment plus the caller-usable client
secret obtained from the Gateway. -/
structure CreatedPaymentResponse where
  payment : Payment
  client_secret : String
deriving DecidableEq, Repr

/-- Sum of the claimed per-line allocations. -/
def allocationSum (items : List PaymentItemInput) : Int :=
  (items.map (fun i => i.price_at_payment)).sum

/-- Whether every referenced order_item_id belongs to the given Order. -/
def allocationsBelong (db : DB) (oid : Nat) (items : List PaymentItemInput) :
    Bool :=
  items.all (fun i =>
    db.order_items.any (fun it => it.id == i.order_item_id && it.order_id == oid))

/-- A primary key larger than every Payment id in the store. -/
def freshPaymentId (db : DB) : Nat :=
  (db.payments.map (fun p => p.id)).foldr max 0 + 1

/-- A primary key larger than every PaymentItem id in the store. -/
def freshPaymentItemId (db : DB) : Nat :=
  (db.payment_items.map (fun i => i.id)).foldr max 0 + 1

/-- The PaymentItem rows created for a new Payment, one per allocation line,
with consecutive fresh ids. -/
def mkPaymentItems (pid : Nat) : Nat → List PaymentItemInput → List PaymentItem
  | _, [] => []
  | iid, i :: rest =>
    { id := iid
      payment_id := pid
      order_item_id := i.order_item_id
      price_at_payment := i.price_at_payment } :: mkPaymentItems pid (iid + 1) rest

/-- Payment creation.  Modelled from the spec, sections 4.1 and 6: NotFound
if the Order is missing or not owned by the caller (unless the caller is
elevated); ValidationError if the claimed amount differs from the Order
total, an allocation references a foreign OrderItem, or the allocation sum
differs from the claimed amount; otherwise the Payment (status pending) and
its PaymentItems are created together in the one returned store and the
response carries the Gateway client secret.  The error message for a missing
Order is fixed by test_create_payment_order_not_found. -/
def createPayment (db : DB) (caller : Nat) (elevated : Bool)
    (inp : CreatePaymentInput) (gateway_secret : String) :
    Except ApiError CreatedPaymentResponse × DB :=
  match findOrder db inp.order_id with
  | none => (.error (ApiError.NotFound "Order not found"), db)
  | some o =>
    if ¬ (elevated = true ∨ o.user_id = caller) then
      (.error (ApiError.NotFound "Order not found"), db)
    else if inp.amount ≠ o.total_amount then
      (.error (ApiError.ValidationError "Amount does not match order total"), db)
    else if ¬ allocationsBelong db o.id inp.payment_items then
      (.error (ApiError.ValidationError "Order item does not belong to order"), db)
    else if allocationSum inp.payment_items ≠ inp.amount then
      (.error (ApiError.ValidationError "Payment items total mismatch"), db)
    else
      let pid := freshPaymentId db
      let payment : Payment :=
        { id := pid
          user_id := caller
          order_id := o.id
          status := .pending
          amount := inp.amount
          external_payment_id := inp.external_payment_id
          payment_method := inp.payment_method }
      let items := mkPaymentItems pid (freshPaymentItemId db) inp.payment_items
      (.ok { payment := payment, client_secret := gateway_secret },
       { db with
         payments := db.payments ++ [payment]
         payment_items := db.payment_items ++ items })

/-- HTTP status of the creation endpoint: 201 on success (spec section 6). -/
def createHttpCode (r : Except ApiError CreatedPaymentResponse) : Nat :=
  match r with
  | .ok _ => 201
  | .error e => httpStatus e

/-! ## API refund (spec sections 4.2 and 6, POST /payments/id/refund) -/

/-- The refund endpoint.  Modelled from the spec, sections 4.2, 6 and 7:
NotFound if the Payment is missing; otherwise the api_refund trigger is
applied under the Engine discipline — redundant replay is treated as
success, an illegal transition fails with InvalidStateTransition and leaves
the store untouched.  The error message is fixed by
test_refund_wrong_status. -/
def refundPayment (db : DB) (pid : Nat) : Except ApiError Payment × DB :=
  match findPaymentById db pid with
  | none => (.error (ApiError.NotFound "Payment not found"), db)
  | some p =>
    match applyTransition p.status .api_refund with
    | .applied s =>
      (.ok { p with status := s }, updatePaymentStatus db p.id s)
    | .redundant => (.ok p, db)
    | .invalid =>
      (.error (ApiError.InvalidStateTransition
        "Only successful payments can be refunded"), db)

/-! ## Webhook ingestion (spec sections 4.3, 6 and 7) -/

/-- Raw webhook body: the event type string plus the two identifier fields
of data.object the system reads (spec section 6). -/
structure RawEvent where
  type : String
  obj_id : Option String
  obj_payment_intent : Option String
deriving DecidableEq, Repr

/-- The closed tagged variant the raw event is parsed into once at
ingestion (spec sections 4.3 and 9). -/
inductive ParsedEvent where
  | payment_succeeded (external_payment_id : String)
  | payment_canceled (external_payment_id : String)
  | charge_refunded (payment_intent : String)
  | unrecognized
deriving DecidableEq, Repr

/-- Event parsing.  Modelled from the spec, section 4.3: direct events carry
the payment identity in data.object.id, while a charge-refund event carries
the originating intent in data.object.payment_intent; every other type is
unrecognized.  The concrete type strings are fixed by the integration
tests. -/
def parseEvent (e : RawEvent) : ParsedEvent :=
  if e.type == "payment_intent.succeeded" then
    match e.obj_id with
    | some i => .payment_succeeded i
    | none => .unrecognized
  else if e.type == "payment_intent.canceled" then
    match e.obj_id with
    | some i => .payment_canceled i
    | none => .unrecognized
  else if e.type == "charge.refunded" then
    match e.obj_payment_intent with
    | some i => .charge_refunded i
    | none => .unrecognized
  else .unrecognized

/-- Lookup key and Engine trigger of a parsed event; none for events the
system does not act on. -/
def eventKeyTrigger : ParsedEvent → Option (String × TransitionTrigger)
  | .payment_succeeded i => some (i, .gateway_payment_succeeded)
  | .payment_canceled i => some (i, .gateway_payment_canceled)
  | .charge_refunded i => some (i, .gateway_charge_refunded)
  | .unrecognized => none

/-- The webhook endpoint.  Modelled from the spec, sections 4.3, 6 and 7:
signature failure is rejected without touching state; once the signature
verifies, the endpoint always acknowledges with 200 — unrecognized events,
events whose Payment cannot be resolved, redundant replays and illegal
transitions are all acknowledged without error, and only a legal transition
mutates the matched Payment. -/
def handleWebhook (db : DB) (signature_valid : Bool) (e : RawEvent) :
    Nat × DB :=
  if signature_valid = false then (400, db)
  else
    match eventKeyTrigger (parseEvent e) with
    | none => (200, db)
    | some (key, trig) =>
      match findPaymentByExternalId db key with
      | none => (200, db)
      | some p =>
        match applyTransition p.status trig with
        | .applied s => (200, updatePaymentStatus db p.id s)
        | .redundant => (200, db)
        | .invalid => (200, db)

/-! ## History query (spec sections 4.5 and 6, GET /payments/history) -/

/-- The caller-scoped history query.  Modelled from the spec, section 4.5:
a caller without elevated privilege retrieves exactly the Payments filtered
by the owner identity. -/
def paymentHistory (db : DB) (caller : Nat) : List Payment :=
  db.payments.filter (fun p => p.user_id == caller)

/-! ## Order deletion cascade -/

/-- Deleting an Order, following the relationship cascades declared in
src/src/database/models/orders.py: OrderItem.order_id is a foreign key with
ondelete CASCADE, and Order.payments is declared with
cascade all, delete-orphan, so the Payments of the deleted Order are deleted
with it, together with their PaymentItems. -/
def deleteOrder (db : DB) (oid : Nat) : DB :=
  let victims := (db.payments.filter (fun p => p.order_id == oid)).map (fun p => p.id)
  { orders := db.orders.filter (fun o => o.id != oid)
    order_items := db.order_items.filter (fun it => it.order_id != oid)
    payments := db.payments.filter (fun p => p.order_id != oid)
    payment_items :=
      db.payment_items.filter (fun i => ¬ victims.contains i.payment_id) }

/-! ## Concrete fixtures mirroring the integration-test data -/

/-- A paid Order of total 10 belonging to user 7. -/
def sampleOrder : Order :=
  { id := 1, user_id := 7, status := .PAID, total_amount := 10 }

/-- The single OrderItem of the sample Order. -/
def sampleItem : OrderItem :=
  { id := 1, order_id := 1, movie_id := 3, price_at_order := 10 }

/-- A Payment of user 7 against the sample Order, in a chosen status. -/
def samplePayment (s : PaymentStatusEnum) : Payment :=
  { id := 1, user_id := 7, order_id := 1, status := s, amount := 10,
    external_payment_id := "pi_123", payment_method := "card" }

/-- The single PaymentItem of the sample Payment. -/
def samplePaymentItem : PaymentItem :=
  { id := 1, payment_id := 1, order_item_id := 1, price_at_payment := 10 }

/-- A one-order, one-payment store with the Payment in a chosen status. -/
def sampleDB (s : PaymentStatusEnum) : DB :=
  { orders := [sampleOrder], order_items := [sampleItem],
    payments := [samplePayment s], payment_items := [samplePaymentItem] }

/-- The sample store before any Payment exists. -/
def creationDB : DB :=
  { orders := [sampleOrder], order_items := [sampleItem],
    payments := [], payment_items := [] }

/-- A well-formed creation request against the sample Order. -/
def sampleCreateInput : CreatePaymentInput :=
  { order_id := 1, amount := 10, payment_method := "card",
    external_payment_id := "pi_123",
    payment_items := [{ order_item_id := 1, price_at_payment := 10 }] }

/-! ## Helper lemmas -/

theorem applyTransition_applied_target {c : PaymentStatusEnum}
    {t : TransitionTrigger} {s : PaymentStatusEnum}
    (h : applyTransition c t = .applied s) : s = targetStatus t := by
  unfold applyTransition at h
  split at h
  · exact absurd h (by simp)
  · split at h
    · cases h; rfl
    · exact absurd h (by simp)

theorem updatePaymentStatus_preserves_ids (db : DB) (pid : Nat)
    (s : PaymentStatusEnum) :
    (updatePaymentStatus db pid s).payments.map (fun p => p.id) =
      db.payments.map (fun p => p.id) := by
  unfold updatePaymentStatus
  simp only [List.map_map]
  apply List.map_congr_left
  intro p _
  simp only [Function.comp_apply]
  split <;> rfl

theorem findPaymentByExternalId_update (db : DB) (pid : Nat)
    (s : PaymentStatusEnum) (key : String) :
    findPaymentByExternalId (updatePaymentStatus db pid s) key =
      (findPaymentByExternalId db key).map
        (fun p => if p.id == pid then { p with status := s } else p) := by
  unfold findPaymentByExternalId updatePaymentStatus
  rw [List.find?_map]
  have hcomp : ((fun p => p.external_payment_id == key) ∘
      (fun p : Payment => if p.id == pid then { p with status := s } else p)) =
      (fun p : Payment => p.external_payment_id == key) := by
    funext q
    simp only [Function.comp_apply]
    split <;> rfl
  rw [hcomp]

/-- Claim C1: the only permitted status transitions of the Engine are
pending to successful on the payment-succeeded event, pending to canceled
on the payment-canceled event, and successful to refunded on the
charge-refunded event or an API refund request; in particular nothing
leaves canceled or refunded, and the only transition out of successful is
to refunded. -/
theorem payment_state_machine_transitions :
    ∀ (s : PaymentStatusEnum) (t : TransitionTrigger) (s2 : PaymentStatusEnum),
      applyTransition s t = .applied s2 ↔
        ((s = .pending ∧ t = .gateway_payment_succeeded ∧ s2 = .successful) ∨
         (s = .pending ∧ t = .gateway_payment_canceled ∧ s2 = .canceled) ∨
         (s = .successful ∧ (t = .gateway_charge_refunded ∨ t = .api_refund) ∧
           s2 = .refunded)) := by
  intro s t s2
  cases s <;> cases t <;> cases s2 <;> decide

/-- Claim C9: for a caller without elevated privilege, the payment history
query returns only Payments owned by that caller. -/
theorem payment_history_only_owner (db : DB) (caller : Nat) (p : Payment)
    (hp : p ∈ paymentHistory db caller) : p.user_id = caller := by
  have h := (List.mem_filter.mp hp).2
  simpa using h

/-- Witness for payment_history_only_owner at the sample store. -/
theorem payment_history_only_owner_witness :
    samplePayment .successful ∈ paymentHistory (sampleDB .successful) 7 ∧
      (samplePayment .successful).user_id = 7 :=
  ⟨by decide,
   payment_history_only_owner (sampleDB .successful) 7
     (samplePayment .successful) (by decide)⟩

/-- Claim C2, counterexample: a Payment in status refunded is not
successful, yet an API refund request for it does not fail with
InvalidStateTransition — under the engine discipline of spec section 4.2 a
request whose target state equals the observed state is a redundant no-op
treated as success. -/
theorem refund_of_refunded_payment_succeeds :
    (samplePayment .refunded).status ≠ .successful ∧
      refundPayment (sampleDB .refunded) 1 =
        (.ok (samplePayment .refunded), sampleDB .refunded) := by
  constructor
  · decide
  · rfl

/-- Claim C2, amended: for every Payment whose status is pending or
canceled, an API refund request fails with InvalidStateTransition
(surfaced as HTTP 400) and leaves the store, hence the Payment status,
unchanged; a refund of an already refunded Payment is instead an
idempotent no-op success. -/
theorem refund_wrong_status_fails (db : DB) (pid : Nat) (p : Payment)
    (hfind : findPaymentById db pid = some p)
    (hstat : p.status = .pending ∨ p.status = .canceled) :
    refundPayment db pid =
      (.error (ApiError.InvalidStateTransition
        "Only successful payments can be refunded"), db) ∧
    httpStatus (ApiError.InvalidStateTransition
      "Only successful payments can be refunded") = 400 := by
  refine ⟨?_, rfl⟩
  rcases hstat with h | h <;>
    simp [refundPayment, hfind, applyTransition, targetStatus, precondStatus, h]

/-- Witness for refund_wrong_status_fails: the sample store with its
Payment pending. -/
theorem refund_wrong_status_fails_witness :
    refundPayment (sampleDB .pending) 1 =
      (.error (ApiError.InvalidStateTransition
        "Only successful payments can be refunded"), sampleDB .pending) :=
  (refund_wrong_status_fails (sampleDB .pending) 1 (samplePayment .pending)
    (by decide) (Or.inl rfl)).1

/-- Claim C6: payment creation fails with NotFound, surfaced as HTTP 404,
whenever the referenced Order does not exist, and also when it exists but
does not belong to the caller and the caller is not elevated; the store is
untouched in both cases. -/
theorem create_payment_not_found (db : DB) (caller : Nat) (elevated : Bool)
    (inp : CreatePaymentInput) (secret : String) :
    (findOrder db inp.order_id = none →
      createPayment db caller elevated inp secret =
        (.error (ApiError.NotFound "Order not found"), db)) ∧
    (∀ o : Order, findOrder db inp.order_id = some o → elevated = false →
      o.user_id ≠ caller →
      createPayment db caller elevated inp secret =
        (.error (ApiError.NotFound "Order not found"), db)) ∧
    httpStatus (ApiError.NotFound "Order not found") = 404 := by
  refine ⟨?_, ?_, rfl⟩
  · intro h
    simp [createPayment, h]
  · intro o ho helev hne
    subst helev
    simp [createPayment, ho, hne]

/-- Witness for create_payment_not_found: both NotFound branches on
concrete stores. -/
theorem create_payment_not_found_witness :
    createPayment creationDB 7 false
        { sampleCreateInput with order_id := 99999 } "sec" =
      (.error (ApiError.NotFound "Order not found"), creationDB) ∧
    createPayment creationDB 8 false sampleCreateInput "sec" =
      (.error (ApiError.NotFound "Order not found"), creationDB) :=
  ⟨(create_payment_not_found creationDB 7 false
      { sampleCreateInput with order_id := 99999 } "sec").1 (by decide),
   (create_payment_not_found creationDB 8 false sampleCreateInput "sec").2.1
      sampleOrder (by decide) rfl (by decide)⟩

/-- Claim C7: once the signature verifies, the webhook endpoint
acknowledges with HTTP 200 and mutates nothing for an unrecognized event
type and for a recognized event whose Payment cannot be resolved; its
answer is 200 for every event with a valid signature, and the rejection
status is produced exactly when signature verification fails, again
without mutating the store. -/
theorem webhook_ack_and_rejection (db : DB) (e : RawEvent) :
    (parseEvent e = .unrecognized → handleWebhook db true e = (200, db)) ∧
    (∀ (key : String) (trig : TransitionTrigger),
      eventKeyTrigger (parseEvent e) = some (key, trig) →
      findPaymentByExternalId db key = none →
      handleWebhook db true e = (200, db)) ∧
    (handleWebhook db true e).1 = 200 ∧
    handleWebhook db false e = (400, db) := by
  refine ⟨?_, ?_, ?_, ?_⟩
  · intro h
    simp [handleWebhook, h, eventKeyTrigger]
  · intro key trig hk hfind
    simp [handleWebhook, hk, hfind]
  · unfold handleWebhook
    simp only [Bool.true_eq_false, if_false]
    rcases h1 : eventKeyTrigger (parseEvent e) with _ | ⟨key, trig⟩
    · rfl
    · rcases h2 : findPaymentByExternalId db key with _ | p
      · simp [h2]
      · rcases h3 : applyTransition p.status trig <;> simp [h2, h3]
  · rfl

/-- Witness for webhook_ack_and_rejection: an unknown event type and a
succeeded event naming an external payment id absent from the store. -/
theorem webhook_ack_and_rejection_witness :
    handleWebhook (sampleDB .pending) true
        { type := "customer.created", obj_id := some "cus_1",
          obj_payment_intent := none } =
      (200, sampleDB .pending) ∧
    handleWebhook (sampleDB .pending) true
        { type := "payment_intent.succeeded", obj_id := some "pi_absent",
          obj_payment_intent := none } =
      (200, sampleDB .pending) :=
  ⟨(webhook_ack_and_rejection (sampleDB .pending)
      { type := "customer.created", obj_id := some "cus_1",
        obj_payment_intent := none }).1 (by decide),
   (webhook_ack_and_rejection (sampleDB .pending)
      { type := "payment_intent.succeeded", obj_id := some "pi_absent",
        obj_payment_intent := none }).2.1 "pi_absent"
      .gateway_payment_succeeded (by decide) (by decide)⟩

/-- Claim C3: a trigger whose target state equals the current state is a
redundant no-op treated as success, and replaying any webhook event against
the store it produced changes nothing and is acknowledged with 200; in
particular a second delivery of the same payment-succeeded event leaves the
status successful and does not error. -/
theorem webhook_replay_idempotent :
    (∀ t : TransitionTrigger, applyTransition (targetStatus t) t = .redundant) ∧
    (∀ (db : DB) (e : RawEvent),
      handleWebhook (handleWebhook db true e).2 true e =
        (200, (handleWebhook db true e).2)) := by
  constructor
  · intro t
    cases t <;> rfl
  · intro db e
    rcases h1 : eventKeyTrigger (parseEvent e) with _ | ⟨key, trig⟩
    · have hfirst : handleWebhook db true e = (200, db) := by
        simp [handleWebhook, h1]
      rw [hfirst]
      simp [handleWebhook, h1]
    · rcases h2 : findPaymentByExternalId db key with _ | p
      · have hfirst : handleWebhook db true e = (200, db) := by
          simp [handleWebhook, h1, h2]
        rw [hfirst]
        simp [handleWebhook, h1, h2]
      · rcases h3 : applyTransition p.status trig with s | _ | _
        · have hs : s = targetStatus trig := applyTransition_applied_target h3
          have hfirst : handleWebhook db true e =
              (200, updatePaymentStatus db p.id s) := by
            simp [handleWebhook, h1, h2, h3]
          rw [hfirst]
          have hfind2 : findPaymentByExternalId (updatePaymentStatus db p.id s)
              key = some { p with status := s } := by
            rw [findPaymentByExternalId_update, h2]
            simp
          have hred : applyTransition s trig = .redundant := by
            subst hs
            simp [applyTransition]
          simp [handleWebhook, h1, hfind2, hred]
        · have hfirst : handleWebhook db true e = (200, db) := by
            simp [handleWebhook, h1, h2, h3]
          rw [hfirst]
          simp [handleWebhook, h1, h2, h3]
        · have hfirst : handleWebhook db true e = (200, db) := by
            simp [handleWebhook, h1, h2, h3]
          rw [hfirst]
          simp [handleWebhook, h1, h2, h3]

theorem mkPaymentItems_prices (pid iid : Nat) (l : List PaymentItemInput) :
    (mkPaymentItems pid iid l).map (fun i => i.price_at_payment) =
      l.map (fun i => i.price_at_payment) := by
  induction l generalizing iid with
  | nil => rfl
  | cons a rest ih => simp [mkPaymentItems, ih]

theorem mkPaymentItems_owner (pid iid : Nat) (l : List PaymentItemInput) :
    ∀ it ∈ mkPaymentItems pid iid l, it.payment_id = pid := by
  induction l generalizing iid with
  | nil =>
    intro it h
    cases h
  | cons a rest ih =>
    intro it h
    rcases List.mem_cons.mp h with h | h
    · rw [h]
    · exact ih (iid + 1) it h

/-- Claim C4: with the Order resolved and owned, payment creation fails
with ValidationError when the claimed amount differs from the Order total,
when an allocation references an OrderItem outside the Order, or when the
allocation sum differs from the claimed amount, leaving the store
untouched; and whenever creation succeeds, the PaymentItems appended for
the new Payment carry its id and their price_at_payment values sum to the
Payment amount. -/
theorem payment_creation_validation (db : DB) (caller : Nat)
    (elevated : Bool) (inp : CreatePaymentInput) (secret : String) (o : Order)
    (horder : findOrder db inp.order_id = some o)
    (hown : elevated = true ∨ o.user_id = caller) :
    (inp.amount ≠ o.total_amount →
      createPayment db caller elevated inp secret =
        (.error (ApiError.ValidationError "Amount does not match order total"),
         db)) ∧
    (inp.amount = o.total_amount →
      allocationsBelong db o.id inp.payment_items = false →
      createPayment db caller elevated inp secret =
        (.error (ApiError.ValidationError "Order item does not belong to order"),
         db)) ∧
    (inp.amount = o.total_amount →
      allocationsBelong db o.id inp.payment_items = true →
      allocationSum inp.payment_items ≠ inp.amount →
      createPayment db caller elevated inp secret =
        (.error (ApiError.ValidationError "Payment items total mismatch"),
         db)) ∧
    (∀ (resp : CreatedPaymentResponse) (db2 : DB),
      createPayment db caller elevated inp secret = (.ok resp, db2) →
      ∃ newItems : List PaymentItem,
        db2.payment_items = db.payment_items ++ newItems ∧
        (∀ it ∈ newItems, it.payment_id = resp.payment.id) ∧
        (newItems.map (fun i => i.price_at_payment)).sum =
          resp.payment.amount) := by
  refine ⟨?_, ?_, ?_, ?_⟩
  · intro hne
    simp [createPayment, horder, hown, hne]
  · intro hamount hbad
    simp [createPayment, horder, hown, hamount, hbad]
  · intro hamount hok hsumne
    have hsumne2 : allocationSum inp.payment_items ≠ o.total_amount := by
      rw [← hamount]
      exact hsumne
    simp [createPayment, horder, hown, hamount, hok, hsumne2]
  · intro resp db2 h
    by_cases hamount : inp.amount = o.total_amount
    · by_cases hbelong : allocationsBelong db o.id inp.payment_items = true
      · by_cases hsum : allocationSum inp.payment_items = inp.amount
        · have hsum2 : allocationSum inp.payment_items = o.total_amount := by
            rw [← hamount]
            exact hsum
          have hcreate : createPayment db caller elevated inp secret =
              (.ok { payment :=
                       { id := freshPaymentId db, user_id := caller,
                         order_id := o.id, status := .pending,
                         amount := o.total_amount,
                         external_payment_id := inp.external_payment_id,
                         payment_method := inp.payment_method },
                     client_secret := secret },
               { db with
                 payments := db.payments ++
                   [{ id := freshPaymentId db, user_id := caller,
                      order_id := o.id, status := .pending,
                      amount := o.total_amount,
                      external_payment_id := inp.external_payment_id,
                      payment_method := inp.payment_method }],
                 payment_items := db.payment_items ++
                   mkPaymentItems (freshPaymentId db) (freshPaymentItemId db)
                     inp.payment_items }) := by
            simp [createPayment, horder, hown, hamount, hbelong, hsum2]
          rw [hcreate] at h
          injection h with h1 h2
          injection h1 with h1
          refine ⟨mkPaymentItems (freshPaymentId db) (freshPaymentItemId db)
            inp.payment_items, ?_, ?_, ?_⟩
          · rw [← h2]
          · intro it hit
            rw [← h1]
            exact mkPaymentItems_owner _ _ _ it hit
          · rw [← h1, mkPaymentItems_prices]
            exact hsum2
        · have hsumne2 : allocationSum inp.payment_items ≠ o.total_amount := by
            rw [← hamount]
            exact hsum
          simp [createPayment, horder, hown, hamount, hbelong, hsumne2] at h
      · simp [createPayment, horder, hown, hamount,
          Bool.eq_false_iff.mpr hbelong] at h
    · simp [createPayment, horder, hown, hamount] at h

/-- Witness for payment_creation_validation: the sample creation request
with a wrong claimed amount, and the success branch of the well-formed
sample request. -/
theorem payment_creation_validation_witness :
    createPayment creationDB 7 false
        { sampleCreateInput with amount := 11 } "sec" =
      (.error (ApiError.ValidationError "Amount does not match order total"),
       creationDB) ∧
    ∃ newItems : List PaymentItem,
      (sampleDB .pending).payment_items = creationDB.payment_items ++ newItems ∧
      (newItems.map (fun i => i.price_at_payment)).sum =
        (samplePayment .pending).amount := by
  constructor
  · exact (payment_creation_validation creationDB 7 false
      { sampleCreateInput with amount := 11 } "sec" sampleOrder
      (by decide) (Or.inr rfl)).1 (by decide)
  · obtain ⟨newItems, h1, -, h3⟩ :=
      (payment_creation_validation creationDB 7 false sampleCreateInput "sec"
        sampleOrder (by decide) (Or.inr rfl)).2.2.2
        { payment := samplePayment .pending, client_secret := "sec" }
        (sampleDB .pending) (by rfl)
    exact ⟨newItems, h1, h3⟩

/-- Claim C5: on a valid creation request — the Order exists, belongs to
the caller, the claimed amount matches the Order total, every allocation
references an OrderItem of the Order and the allocation sum matches — the
system creates in the single returned store a Payment with status pending
together with its PaymentItems, and answers 201 with the Payment and the
client secret obtained from the Gateway. -/
theorem payment_creation_success (db : DB) (caller : Nat) (elevated : Bool)
    (inp : CreatePaymentInput) (secret : String) (o : Order)
    (horder : findOrder db inp.order_id = some o)
    (hown : elevated = true ∨ o.user_id = caller)
    (hamount : inp.amount = o.total_amount)
    (hbelong : allocationsBelong db o.id inp.payment_items = true)
    (hsum : allocationSum inp.payment_items = inp.amount) :
    ∃ payment : Payment,
      createPayment db caller elevated inp secret =
        (.ok { payment := payment, client_secret := secret },
         { db with
           payments := db.payments ++ [payment]
           payment_items := db.payment_items ++
             mkPaymentItems payment.id (freshPaymentItemId db)
               inp.payment_items }) ∧
      payment.status = .pending ∧
      payment.user_id = caller ∧
      payment.order_id = o.id ∧
      payment.amount = inp.amount ∧
      payment.external_payment_id = inp.external_payment_id ∧
      payment.payment_method = inp.payment_method ∧
      createHttpCode (createPayment db caller elevated inp secret).1 = 201 := by
  have hsum2 : allocationSum inp.payment_items = o.total_amount := by
    rw [← hamount]
    exact hsum
  have hcreate : createPayment db caller elevated inp secret =
      (.ok { payment :=
               { id := freshPaymentId db, user_id := caller,
                 order_id := o.id, status := .pending,
                 amount := o.total_amount,
                 external_payment_id := inp.external_payment_id,
                 payment_method := inp.payment_method },
             client_secret := secret },
       { db with
         payments := db.payments ++
           [{ id := freshPaymentId db, user_id := caller,
              order_id := o.id, status := .pending,
              amount := o.total_amount,
              external_payment_id := inp.external_payment_id,
              payment_method := inp.payment_method }],
         payment_items := db.payment_items ++
           mkPaymentItems (freshPaymentId db) (freshPaymentItemId db)
             inp.payment_items }) := by
    simp [createPayment, horder, hown, hamount, hbelong, hsum2]
  refine ⟨{ id := freshPaymentId db, user_id := caller, order_id := o.id,
            status := .pending, amount := o.total_amount,
            external_payment_id := inp.external_payment_id,
            payment_method := inp.payment_method },
    hcreate, rfl, rfl, rfl, hamount.symm, rfl, rfl, ?_⟩
  rw [hcreate]
  rfl

/-- Witness for payment_creation_success: the well-formed sample request
against the sample Order. -/
theorem payment_creation_success_witness :
    ∃ payment : Payment,
      createPayment creationDB 7 false sampleCreateInput "sec" =
        (.ok { payment := payment, client_secret := "sec" },
         { creationDB with
           payments := creationDB.payments ++ [payment]
           payment_items := creationDB.payment_items ++
             mkPaymentItems payment.id (freshPaymentItemId creationDB)
               sampleCreateInput.payment_items }) ∧
      payment.status = .pending ∧
      payment.user_id = 7 ∧
      payment.order_id = sampleOrder.id ∧
      payment.amount = sampleCreateInput.amount ∧
      payment.external_payment_id = sampleCreateInput.external_payment_id ∧
      payment.payment_method = sampleCreateInput.payment_method ∧
      createHttpCode (createPayment creationDB 7 false sampleCreateInput
        "sec").1 = 201 :=
  payment_creation_success creationDB 7 false sampleCreateInput "sec"
    sampleOrder (by decide) (Or.inr rfl) rfl rfl rfl

/-- Claim C8: a payment-succeeded or payment-canceled event is resolved
through the payment identity in data.object.id, a charge-refunded event
through the embedded intent reference in data.object.payment_intent, and
the resolved key is matched against Payment.external_payment_id: any
Payment found for a key carries that key as its external_payment_id. -/
theorem webhook_event_resolution :
    (∀ (i : String) (x : Option String),
      parseEvent { type := "payment_intent.succeeded", obj_id := some i,
                   obj_payment_intent := x } = .payment_succeeded i) ∧
    (∀ (i : String) (x : Option String),
      parseEvent { type := "payment_intent.canceled", obj_id := some i,
                   obj_payment_intent := x } = .payment_canceled i) ∧
    (∀ (i : Option String) (x : String),
      parseEvent { type := "charge.refunded", obj_id := i,
                   obj_payment_intent := some x } = .charge_refunded x) ∧
    (∀ i : String, eventKeyTrigger (.payment_succeeded i) =
      some (i, .gateway_payment_succeeded)) ∧
    (∀ i : String, eventKeyTrigger (.payment_canceled i) =
      some (i, .gateway_payment_canceled)) ∧
    (∀ i : String, eventKeyTrigger (.charge_refunded i) =
      some (i, .gateway_charge_refunded)) ∧
    (∀ (db : DB) (key : String) (p : Payment),
      findPaymentByExternalId db key = some p →
      p.external_payment_id = key) := by
  refine ⟨fun i x => rfl, fun i x => rfl, fun i x => rfl,
    fun i => rfl, fun i => rfl, fun i => rfl, ?_⟩
  intro db key p h
  unfold findPaymentByExternalId at h
  have hb := List.find?_some h
  exact eq_of_beq hb

/-- Witness for webhook_event_resolution: the Payment the sample store
resolves for key pi_123 carries that external id. -/
theorem webhook_event_resolution_witness :
    (samplePayment .pending).external_payment_id = "pi_123" :=
  webhook_event_resolution.2.2.2.2.2.2 (sampleDB .pending) "pi_123"
    (samplePayment .pending) (by rfl)

/-- Claim C10, counterexample: the sample successful Payment belongs to
Order 1, and deleting Order 1 removes it from the store — the Order to
Payment relationship in src/src/database/models/orders.py is declared with
cascade all, delete-orphan, so an Order deletion does delete its
historical Payments. -/
theorem order_delete_removes_payments :
    samplePayment .successful ∈ (sampleDB .successful).payments ∧
      (deleteOrder (sampleDB .successful) 1).payments = [] := by
  constructor
  · exact List.mem_singleton.mpr rfl
  · rfl

/-- Claim C10, amended: the payment lifecycle itself never deletes a
Payment — an API refund and any webhook delivery preserve the stored
Payment ids, so refund and cancel are terminal states rather than
deletions — but deleting an Order cascade-deletes its Payments: after
deleteOrder exactly the Payments of other Orders remain. -/
theorem payments_survive_lifecycle_not_order_delete :
    (∀ (db : DB) (pid : Nat),
      ((refundPayment db pid).2).payments.map (fun p => p.id) =
        db.payments.map (fun p => p.id)) ∧
    (∀ (db : DB) (sig : Bool) (e : RawEvent),
      ((handleWebhook db sig e).2).payments.map (fun p => p.id) =
        db.payments.map (fun p => p.id)) ∧
    (∀ (db : DB) (oid : Nat) (p : Payment),
      p ∈ (deleteOrder db oid).payments ↔
        p ∈ db.payments ∧ p.order_id ≠ oid) := by
  refine ⟨?_, ?_, ?_⟩
  · intro db pid
    rcases h1 : findPaymentById db pid with _ | p
    · simp [refundPayment, h1]
    · rcases h2 : applyTransition p.status .api_refund with s | _ | _ <;>
        simp [refundPayment, h1, h2, updatePaymentStatus_preserves_ids]
  · intro db sig e
    cases sig
    · rfl
    · rcases h1 : eventKeyTrigger (parseEvent e) with _ | ⟨key, trig⟩
      · simp [handleWebhook, h1]
      · rcases h2 : findPaymentByExternalId db key with _ | p
        · simp [handleWebhook, h1, h2]
        · rcases h3 : applyTransition p.status trig with s | _ | _ <;>
            simp [handleWebhook, h1, h2, h3, updatePaymentStatus_preserves_ids]
  · intro db oid p
    simp [deleteOrder, List.mem_filter, bne_iff_ne]

end OnlineCinema
